import Mathlib

/-!
Verification of UI-layer arithmetic of the etf-grid-design repository.

The JavaScript/JSX sources are embedded shallowly: JS numbers are modelled
as exact rationals (ℚ), `Math.round`/`Math.floor` as integer-valued
functions on ℚ, strings as Lean `String`, absent-or-falsy JS values as
`Option`. Each definition names the source function it embeds.
-/

namespace EtfGrid

/-- JavaScript `Math.round`: nearest integer, ties toward +∞,
i.e. `⌊x + 1/2⌋`. -/
def jsRound (q : ℚ) : ℤ := ⌊q + 1/2⌋

/-- The four suitability dimensions rendered by the UI. -/
inductive Dimension
  | amplitude
  | volatility
  | market
  | liquidity
deriving DecidableEq

/-- `getOldDimensionScore` from `AdaptabilityCard`
(src/unnamed/part_002 lines 44-56): the fallback that decomposes the
total suitability score `data.score` into the four dimension scores when
the backend response has no `dimension_scores` field. -/
def getOldDimensionScore (score : ℚ) : Dimension → ℤ
  | .amplitude => max 0 (jsRound (score / 100 * 35))
  | .volatility => max 0 (jsRound ((max 35 score - 35) / 100 * 30))
  | .market => max 0 (jsRound ((max 65 score - 65) / 100 * 25))
  | .liquidity => max 0 (jsRound ((max 90 score - 90) / 100 * 10))

/-- Sum of the four fallback dimension scores of `getOldDimensionScore`. -/
def sumOldDimensionScores (score : ℚ) : ℤ :=
  getOldDimensionScore score .amplitude + getOldDimensionScore score .volatility +
    getOldDimensionScore score .market + getOldDimensionScore score .liquidity

/-- The per-dimension maxima hard-coded in `AdaptabilityCard`'s JSX
(src/unnamed/part_002 lines 119-181: amplitude /35, volatility /30,
market /25, liquidity /10). -/
def adaptabilityCardMaxScore : Dimension → ℤ
  | .amplitude => 35
  | .volatility => 30
  | .market => 25
  | .liquidity => 10

/-- The `dimensions` configuration array of `SuitabilityCard`
(src/unnamed/part_001 lines 38-67), as (key, maxScore) pairs. -/
def suitabilityCardDimensions : List (String × ℤ) :=
  [("amplitude", 35), ("volatility", 30), ("market_characteristics", 25), ("liquidity", 10)]

/-- CSS styling band used by the score displays. -/
inductive ScoreColor
  | success
  | warning
  | danger
deriving DecidableEq

/-- `getScoreColor` from `AdaptabilityCard` (src/unnamed/part_002 lines 8-12):
`score >= 80` → success text, `score >= 60` → warning text, else danger. -/
def getScoreColor (score : ℚ) : ScoreColor :=
  if 80 ≤ score then .success
  else if 60 ≤ score then .warning
  else .danger

/-- `getScoreColor` from `SuitabilityCard` (src/unnamed/part_001 lines 22-27):
classifies by `score / maxScore` against 0.8 and 0.6. -/
def suitabilityScoreColor (score maxScore : ℚ) : ScoreColor :=
  if 0.8 ≤ score / maxScore then .success
  else if 0.6 ≤ score / maxScore then .warning
  else .danger

/-- Suitability conclusion bands. -/
inductive Conclusion
  | Unsuitable
  | Marginal
  | Suitable
  | HighlySuitable
deriving DecidableEq

/-- Modelled from the spec: the conclusion banding of `SuitabilityScorer`
is backend code absent from src/ (only the UI rendering the resulting
`conclusion` string is present). Spec 4.2: "maps total_score to
conclusion bands (e.g. ≥80 HighlySuitable, ≥60 Suitable, ≥40 Marginal,
else Unsuitable)". -/
def conclusionOfScore (s : ℚ) : Conclusion :=
  if 80 ≤ s then .HighlySuitable
  else if 60 ≤ s then .Suitable
  else if 40 ≤ s then .Marginal
  else .Unsuitable

lemma jsRound_le {q : ℚ} {n : ℤ} (h : q + 1/2 < (n : ℚ) + 1) : jsRound q ≤ n := by
  have hf : jsRound q < n + 1 := by
    have := Int.floor_lt.mpr (show q + 1/2 < ((n + 1 : ℤ) : ℚ) by push_cast; linarith)
    simpa [jsRound] using this
  omega

/-- C1 counterexample: at total score 1 every fallback dimension score is 0,
so the four dimension scores sum to 0, not to the total score 1 — the
decomposition does not reproduce the total. -/
theorem sumOldDimensionScores_one_ne :
    sumOldDimensionScores 1 = 0 ∧ sumOldDimensionScores 1 ≠ 1 := by
  have h : sumOldDimensionScores 1 = 0 := by
    norm_num [sumOldDimensionScores, getOldDimensionScore, jsRound]
  exact ⟨h, by rw [h]; decide⟩

/-- C1 (amended): for every total score s ∈ [0,100] each fallback dimension
score of `getOldDimensionScore` lies in [0, its dimension maximum], and the
sum of the four lies in [0, 65] ⊆ [0, 100] — but the sum does not in general
equal s (see the counterexample at s = 1). -/
theorem getOldDimensionScore_bounds (s : ℚ) (h0 : 0 ≤ s) (h1 : s ≤ 100) :
    (∀ d, 0 ≤ getOldDimensionScore s d ∧
      getOldDimensionScore s d ≤ adaptabilityCardMaxScore d) ∧
    0 ≤ sumOldDimensionScores s ∧ sumOldDimensionScores s ≤ 65 := by
  have hm35 : max 35 s ≤ 100 := max_le (by norm_num) h1
  have hm65 : max 65 s ≤ 100 := max_le (by norm_num) h1
  have hm90 : max 90 s ≤ 100 := max_le (by norm_num) h1
  have h35 : (35 : ℚ) ≤ max 35 s := le_max_left _ _
  have h65 : (65 : ℚ) ≤ max 65 s := le_max_left _ _
  have h90 : (90 : ℚ) ≤ max 90 s := le_max_left _ _
  have hamp : getOldDimensionScore s .amplitude ≤ 35 := by
    simp only [getOldDimensionScore]
    exact max_le (by norm_num) (jsRound_le (by push_cast; linarith))
  have hvol : getOldDimensionScore s .volatility ≤ 20 := by
    simp only [getOldDimensionScore]
    exact max_le (by norm_num) (jsRound_le (by push_cast; linarith))
  have hmkt : getOldDimensionScore s .market ≤ 9 := by
    simp only [getOldDimensionScore]
    exact max_le (by norm_num) (jsRound_le (by push_cast; linarith))
  have hliq : getOldDimensionScore s .liquidity ≤ 1 := by
    simp only [getOldDimensionScore]
    exact max_le (by norm_num) (jsRound_le (by push_cast; linarith))
  have hnn : ∀ d, 0 ≤ getOldDimensionScore s d := by
    intro d
    cases d <;> exact le_max_left 0 _
  refine ⟨fun d => ⟨hnn d, ?_⟩, ?_, ?_⟩
  · cases d with
    | amplitude => exact hamp
    | volatility => exact hvol.trans (by norm_num [adaptabilityCardMaxScore])
    | market => exact hmkt.trans (by norm_num [adaptabilityCardMaxScore])
    | liquidity => exact hliq.trans (by norm_num [adaptabilityCardMaxScore])
  · have := hnn .amplitude
    have := hnn .volatility
    have := hnn .market
    have := hnn .liquidity
    simp only [sumOldDimensionScores]
    linarith
  · simp only [sumOldDimensionScores]
    linarith

/-- Witness for C1's amended theorem at s = 50. -/
theorem getOldDimensionScore_bounds_witness :
    (∀ d, 0 ≤ getOldDimensionScore 50 d ∧
      getOldDimensionScore 50 d ≤ adaptabilityCardMaxScore d) ∧
    0 ≤ sumOldDimensionScores 50 ∧ sumOldDimensionScores 50 ≤ 65 :=
  getOldDimensionScore_bounds 50 (by norm_num) (by norm_num)

/-- C2: the four dimension maxima used throughout the UI are amplitude 35,
volatility 30, market characteristics 25 and liquidity 10, and they sum
to 100, both in `SuitabilityCard`'s `dimensions` configuration and in the
maxima hard-coded by `AdaptabilityCard`. -/
theorem dimension_maxima_sum :
    suitabilityCardDimensions =
      [("amplitude", 35), ("volatility", 30), ("market_characteristics", 25), ("liquidity", 10)] ∧
    (suitabilityCardDimensions.map Prod.snd).sum = 100 ∧
    adaptabilityCardMaxScore .amplitude = 35 ∧
    adaptabilityCardMaxScore .volatility = 30 ∧
    adaptabilityCardMaxScore .market = 25 ∧
    adaptabilityCardMaxScore .liquidity = 10 ∧
    adaptabilityCardMaxScore .amplitude + adaptabilityCardMaxScore .volatility +
      adaptabilityCardMaxScore .market + adaptabilityCardMaxScore .liquidity = 100 := by
  refine ⟨rfl, rfl, rfl, rfl, rfl, rfl, rfl⟩

/-- C3: total-score banding. For every s: s ≥ 80 gives success styling in
both card components and the HighlySuitable conclusion band; 60 ≤ s < 80
gives warning styling and Suitable; 40 ≤ s < 60 gives Marginal; s < 40
gives Unsuitable (the latter two share the danger styling). -/
theorem score_banding (s : ℚ) :
    (80 ≤ s → getScoreColor s = .success ∧ suitabilityScoreColor s 100 = .success ∧
      conclusionOfScore s = .HighlySuitable) ∧
    (60 ≤ s → s < 80 → getScoreColor s = .warning ∧ suitabilityScoreColor s 100 = .warning ∧
      conclusionOfScore s = .Suitable) ∧
    (40 ≤ s → s < 60 → conclusionOfScore s = .Marginal ∧ getScoreColor s = .danger) ∧
    (s < 40 → conclusionOfScore s = .Unsuitable ∧ getScoreColor s = .danger) := by
  have hdiv8 : (0.8 : ℚ) ≤ s / 100 ↔ 80 ≤ s := by
    rw [le_div_iff₀ (by norm_num : (0 : ℚ) < 100)]
    norm_num
  have hdiv6 : (0.6 : ℚ) ≤ s / 100 ↔ 60 ≤ s := by
    rw [le_div_iff₀ (by norm_num : (0 : ℚ) < 100)]
    norm_num
  refine ⟨fun h80 => ?_, fun h60 h80 => ?_, fun h40 h60 => ?_, fun h40 => ?_⟩
  · simp [getScoreColor, suitabilityScoreColor, conclusionOfScore, h80, hdiv8.mpr h80]
  · have : ¬ (80 ≤ s) := not_le.mpr h80
    have h8 : ¬ ((0.8 : ℚ) ≤ s / 100) := fun hc => this (hdiv8.mp hc)
    simp [getScoreColor, suitabilityScoreColor, conclusionOfScore, this, h8, h60, hdiv6.mpr h60]
  · have h80 : ¬ (80 ≤ s) := by linarith
    have h60n : ¬ (60 ≤ s) := not_le.mpr h60
    simp [getScoreColor, conclusionOfScore, h80, h60n, h40]
  · have h80 : ¬ (80 ≤ s) := by linarith
    have h60 : ¬ (60 ≤ s) := by linarith
    have h40n : ¬ (40 ≤ s) := not_le.mpr h40
    simp [getScoreColor, conclusionOfScore, h80, h60, h40n]

/-- Witness for C3 at concrete scores in each band. -/
theorem score_banding_witness :
    getScoreColor 85 = .success ∧ conclusionOfScore 70 = .Suitable ∧
    conclusionOfScore 45 = .Marginal ∧ conclusionOfScore 30 = .Unsuitable :=
  ⟨((score_banding 85).1 (by norm_num)).1,
   (((score_banding 70).2.1 (by norm_num) (by norm_num)).2.2),
   ((score_banding 45).2.2.1 (by norm_num) (by norm_num)).1,
   ((score_banding 30).2.2.2 (by norm_num)).1⟩

/-! ### C4: grid count computed by the api-fix service -/

/-- Frontend analysis parameters handed to `transformAnalysisParams`
(src/frontend/src/services/api-fix.js lines 69-103). `totalCapital` is
modelled as the numeric value of the field (JS numbers as ℚ). -/
structure FrontendParams where
  totalCapital : ℚ
  gridType : String
  riskPreference : String

/-- Backend-shaped parameters produced by `transformAnalysisParams`. -/
structure BackendParams where
  investment_amount : ℚ
  risk_tolerance : String
  grid_count : ℤ

/-- `riskMapping` in `transformAnalysisParams` (api-fix.js lines 79-83). -/
def riskMapping (r : String) : Option String :=
  if r = "保守" then some "low"
  else if r = "稳健" then some "medium"
  else if r = "激进" then some "high"
  else none

/-- `calculateGridCount` nested in `transformAnalysisParams`
(api-fix.js lines 86-94): one grid per 10000 of capital, clamped to
[8, 20] for a geometric ('等比') grid and to [10, 30] otherwise. -/
def calculateGridCount (capital : ℚ) (gridType : String) (risk : String) : ℤ :=
  let baseCount : ℤ := ⌊capital / 10000⌋
  if gridType = "等比" then min (max baseCount 8) 20
  else min (max baseCount 10) 30

/-- `transformAnalysisParams` (api-fix.js lines 69-103). The
`parseFloat(totalCapital) || 100000` fallback fires exactly on falsy
values, i.e. capital 0 in the numeric model. -/
def transformAnalysisParams (p : FrontendParams) : BackendParams :=
  { investment_amount := if p.totalCapital = 0 then 100000 else p.totalCapital
    risk_tolerance := (riskMapping p.riskPreference).getD "medium"
    grid_count := calculateGridCount p.totalCapital p.gridType p.riskPreference }

/-- C4: `calculateGridCount` always lands in [8, 30] — it is the clamp of
⌊capital/10000⌋ to [8, 20] for '等比' and to [10, 30] otherwise — hence the
`grid_count` sent by `transformAnalysisParams` is ≥ 2 (the `InvalidRangeError`
guard `grid_count < 2` cannot fire on it), and the count is monotone
nondecreasing in capital. -/
theorem calculateGridCount_bounds (capital c₂ : ℚ) (gridType risk : String)
    (p : FrontendParams) :
    (8 ≤ calculateGridCount capital gridType risk ∧
      calculateGridCount capital gridType risk ≤ 30) ∧
    (gridType = "等比" →
      calculateGridCount capital gridType risk = min (max ⌊capital / 10000⌋ 8) 20) ∧
    (gridType ≠ "等比" →
      calculateGridCount capital gridType risk = min (max ⌊capital / 10000⌋ 10) 30) ∧
    2 ≤ (transformAnalysisParams p).grid_count ∧
    (capital ≤ c₂ →
      calculateGridCount capital gridType risk ≤ calculateGridCount c₂ gridType risk) := by
  have hbounds : ∀ (c : ℚ) (g r : String),
      8 ≤ calculateGridCount c g r ∧ calculateGridCount c g r ≤ 30 := by
    intro c g r
    unfold calculateGridCount
    by_cases hg : g = "等比" <;> simp only [hg, if_true, if_false]
    · exact ⟨le_min (le_trans (by norm_num) (le_max_right _ _)) (by norm_num),
        le_trans (min_le_right _ _) (by norm_num)⟩
    · exact ⟨le_min (le_trans (by norm_num) (le_max_right _ _)) (by norm_num),
        min_le_right _ _⟩
  refine ⟨hbounds capital gridType risk, ?_, ?_, ?_, ?_⟩
  · intro hg
    simp [calculateGridCount, hg]
  · intro hg
    simp [calculateGridCount, hg]
  · have h := hbounds p.totalCapital p.gridType p.riskPreference
    have : (transformAnalysisParams p).grid_count =
        calculateGridCount p.totalCapital p.gridType p.riskPreference := rfl
    omega
  · intro hle
    have hfl : ⌊capital / 10000⌋ ≤ ⌊c₂ / 10000⌋ :=
      Int.floor_le_floor (by apply div_le_div_of_nonneg_right hle; norm_num)
    unfold calculateGridCount
    by_cases hg : gridType = "等比" <;> simp only [hg, if_true, if_false] <;>
      exact min_le_min (max_le_max hfl le_rfl) le_rfl

/-- Witness for C4 at capital 150000 ≤ 200000, geometric grid. -/
theorem calculateGridCount_bounds_witness :
    8 ≤ calculateGridCount 150000 "等比" "稳健" ∧
    calculateGridCount 150000 "等比" "稳健" ≤ 30 ∧
    2 ≤ (transformAnalysisParams ⟨150000, "等比", "稳健"⟩).grid_count ∧
    calculateGridCount 150000 "等比" "稳健" ≤ calculateGridCount 200000 "等比" "稳健" := by
  have h := calculateGridCount_bounds 150000 200000 "等比" "稳健" ⟨150000, "等比", "稳健"⟩
  exact ⟨h.1.1, h.1.2, h.2.2.2.1, h.2.2.2.2 (by norm_num)⟩

/-! ### C5: InputForm validation -/

/-- The data `validateForm` reads: the raw ETF code string and the
`parseFloat` result of the `initial_capital` field (`none` when the parse
yields NaN — in particular for the empty, i.e. falsy, string). -/
structure InputFormData where
  etf_code : String
  initial_capital : Option ℚ

/-- JavaScript `String.prototype.trim`: strip leading and trailing
whitespace, modelled over the character list. -/
def jsTrim (s : String) : String :=
  String.mk (((s.data.dropWhile Char.isWhitespace).reverse.dropWhile Char.isWhitespace).reverse)

/-- The regex test `/^\d{6}$/`: exactly six decimal digits. -/
def isSixDigits (s : String) : Bool :=
  s.data.length == 6 && s.data.all Char.isDigit

/-- The `etf_code` entry of `newErrors` in `validateForm`
(InputForm.jsx lines 24-29). -/
def etfCodeError (fd : InputFormData) : Option String :=
  if jsTrim fd.etf_code = "" then some "请输入ETF代码"
  else if isSixDigits (jsTrim fd.etf_code) then none
  else some "ETF代码应为6位数字"

/-- The `initial_capital` entry of `newErrors` in `validateForm`
(InputForm.jsx lines 31-39): the `!formData.initial_capital || isNaN(capital)`
test is `none` here, since the only falsy string is "" and `parseFloat("")`
is NaN. -/
def initialCapitalError (fd : InputFormData) : Option String :=
  match fd.initial_capital with
  | none => some "请输入有效的资金数额"
  | some c =>
    if c < 10000 then some "初始资金应不少于1万元"
    else if 10000000 < c then some "初始资金不能超过1000万元"
    else none

/-- `validateForm` from `InputForm`
(src/frontend/src/components/InputForm.jsx lines 21-43): true when the
`newErrors` object stays empty. -/
def validateForm (fd : InputFormData) : Bool :=
  (etfCodeError fd).isNone && (initialCapitalError fd).isNone

/-- C5: `validateForm` returns true iff the trimmed ETF code is exactly six
decimal digits and the capital parses to a number within [10000, 10000000];
hence every validated submission carries a strictly positive capital, so the
non-positive-capital `InvalidParameterError` of the core cannot be triggered
by it. -/
theorem validateForm_iff (fd : InputFormData) :
    (validateForm fd = true ↔
      (isSixDigits (jsTrim fd.etf_code) = true ∧
        ∃ c, fd.initial_capital = some c ∧ 10000 ≤ c ∧ c ≤ 10000000)) ∧
    (validateForm fd = true → ∀ c, fd.initial_capital = some c → 0 < c) := by
  have hetf : (etfCodeError fd).isNone = isSixDigits (jsTrim fd.etf_code) := by
    unfold etfCodeError
    by_cases h : (jsTrim fd.etf_code) = ""
    · simp [h, isSixDigits]
    · by_cases h6 : isSixDigits (jsTrim fd.etf_code)
      · simp [h, h6]
      · simp [h, h6]
  have hcap : (initialCapitalError fd).isNone = true ↔
      ∃ c, fd.initial_capital = some c ∧ 10000 ≤ c ∧ c ≤ 10000000 := by
    unfold initialCapitalError
    cases hc : fd.initial_capital with
    | none => simp
    | some c =>
      by_cases h1 : c < 10000
      · simp only [if_pos h1]
        constructor
        · intro h
          exact absurd h (by simp)
        · rintro ⟨c', hc', hlo, hhi⟩
          rw [Option.some.injEq] at hc'
          subst hc'
          linarith
      · by_cases h2 : 10000000 < c
        · simp only [if_neg h1, if_pos h2]
          constructor
          · intro h
            exact absurd h (by simp)
          · rintro ⟨c', hc', hlo, hhi⟩
            rw [Option.some.injEq] at hc'
            subst hc'
            linarith
        · simp only [if_neg h1, if_neg h2, Option.isNone_none]
          refine ⟨fun _ => ⟨c, rfl, le_of_not_lt h1, le_of_not_lt h2⟩, fun _ => trivial⟩
  have hmain : validateForm fd = true ↔
      (isSixDigits (jsTrim fd.etf_code) = true ∧
        ∃ c, fd.initial_capital = some c ∧ 10000 ≤ c ∧ c ≤ 10000000) := by
    unfold validateForm
    rw [Bool.and_eq_true, hetf, hcap]
  refine ⟨hmain, fun hv c hc => ?_⟩
  obtain ⟨-, c', hc', hlo, -⟩ := hmain.mp hv
  rw [hc] at hc'
  rw [Option.some.injEq] at hc'
  subst hc'
  linarith

/-- Witness for C5 on the concrete form entry (etf 510300, capital 100000). -/
theorem validateForm_iff_witness :
    validateForm ⟨"510300", some 100000⟩ = true ∧ (0 : ℚ) < 100000 := by
  have h := validateForm_iff ⟨"510300", some 100000⟩
  have hv : validateForm ⟨"510300", some 100000⟩ = true :=
    h.1.mpr ⟨by decide, 100000, rfl, by norm_num, by norm_num⟩
  exact ⟨hv, h.2 hv 100000 rfl⟩

/-! ### C6: apiCallWithRetry -/

/-- The error object produced by the axios response interceptor
(src/frontend/src/services/api-fix.js lines 320-363): a message plus an
optional HTTP status (`customError.status = error.response?.status`). -/
structure JsError where
  status : Option ℤ
  message : String
deriving DecidableEq

/-- The client-error test of `apiCallWithRetry` (api-fix.js line 436):
`error.status && error.status >= 400 && error.status < 500`. A missing —
or zero, hence falsy — status short-circuits to false. -/
def isClientError (e : JsError) : Bool :=
  match e.status with
  | none => false
  | some s => if s = 0 then false else decide (400 ≤ s) && decide (s < 500)

/-- Terminal outcome of `apiCallWithRetry`. -/
inductive RetryOutcome (V : Type)
  | ok (v : V)
  | clientError (e : JsError)
  | exhausted (maxRetries : ℕ) (message : String)
  | noAttempt
deriving DecidableEq

/-- The retry loop of `apiCallWithRetry` (api-fix.js lines 426-452).
`calls k` is the outcome of the k-th invocation of `apiCall`. The result
is paired with the number of invocations performed from `attempt` on.
`noAttempt` is the `throw lastError` fall-through, reachable only when
the loop body never runs. -/
def retryLoop {V : Type} (calls : ℕ → Except JsError V) (maxRetries attempt : ℕ) :
    RetryOutcome V × ℕ :=
  if _h : attempt ≤ maxRetries then
    match calls attempt with
    | .ok v => (.ok v, 1)
    | .error e =>
      if isClientError e then (.clientError e, 1)
      else if _h2 : attempt = maxRetries then (.exhausted maxRetries e.message, 1)
      else
        let r := retryLoop calls maxRetries (attempt + 1)
        (r.1, r.2 + 1)
  else (.noAttempt, 0)
termination_by maxRetries + 1 - attempt
decreasing_by omega

/-- `apiCallWithRetry` (api-fix.js lines 426-452), starting at attempt 0. -/
def apiCallWithRetry {V : Type} (calls : ℕ → Except JsError V) (maxRetries : ℕ) :
    RetryOutcome V × ℕ :=
  retryLoop calls maxRetries 0

lemma retryLoop_error_step {V : Type} (calls : ℕ → Except JsError V) (mr a : ℕ)
    (e : JsError) (h : a ≤ mr) (hcall : calls a = .error e) :
    retryLoop calls mr a =
      (if isClientError e = true then ((.clientError e : RetryOutcome V), 1)
       else if a = mr then (.exhausted mr e.message, 1)
       else ((retryLoop calls mr (a + 1)).1, (retryLoop calls mr (a + 1)).2 + 1)) := by
  rw [retryLoop, dif_pos h, hcall]
  rfl

lemma retryLoop_count_le {V : Type} (calls : ℕ → Except JsError V) (maxRetries : ℕ) :
    ∀ fuel attempt, maxRetries + 1 - attempt ≤ fuel →
      (retryLoop calls maxRetries attempt).2 ≤ maxRetries + 1 - attempt := by
  intro fuel
  induction fuel with
  | zero =>
    intro attempt hf
    have hgt : ¬ attempt ≤ maxRetries := by omega
    rw [retryLoop]
    simp [hgt]
  | succ n ih =>
    intro attempt hf
    by_cases h : attempt ≤ maxRetries
    · cases hcall : calls attempt with
      | ok v =>
        rw [retryLoop, dif_pos h, hcall]
        show (1 : ℕ) ≤ maxRetries + 1 - attempt
        omega
      | error e =>
        rw [retryLoop_error_step calls maxRetries attempt e h hcall]
        by_cases hce : isClientError e
        · rw [if_pos hce]
          show (1 : ℕ) ≤ maxRetries + 1 - attempt
          omega
        · rw [if_neg hce]
          by_cases h2 : attempt = maxRetries
          · rw [if_pos h2]
            show (1 : ℕ) ≤ maxRetries + 1 - attempt
            omega
          · rw [if_neg h2]
            have hrec := ih (attempt + 1) (by omega)
            show (retryLoop calls maxRetries (attempt + 1)).2 + 1 ≤ maxRetries + 1 - attempt
            omega
    · rw [retryLoop, dif_neg h]
      show (0 : ℕ) ≤ maxRetries + 1 - attempt
      omega

/-- C6: `apiCallWithRetry` never retries a client error — at any reached
attempt whose call fails with a 4xx status the loop rethrows that very
error having made exactly one further invocation — and in every case the
total number of invocations is at most `maxRetries + 1`. -/
theorem apiCallWithRetry_spec {V : Type} (calls : ℕ → Except JsError V)
    (maxRetries attempt : ℕ) (e : JsError) :
    (attempt ≤ maxRetries → calls attempt = .error e → isClientError e = true →
      retryLoop calls maxRetries attempt = (.clientError e, 1)) ∧
    (retryLoop calls maxRetries attempt).2 ≤ maxRetries + 1 - attempt ∧
    (apiCallWithRetry calls maxRetries).2 ≤ maxRetries + 1 := by
  refine ⟨fun hle hcall hce => ?_, ?_, ?_⟩
  · rw [retryLoop]
    simp [hle, hcall, hce]
  · exact retryLoop_count_le calls maxRetries _ attempt le_rfl
  · have := retryLoop_count_le calls maxRetries (maxRetries + 1) 0 (by omega)
    simpa [apiCallWithRetry] using this

/-- Witness for C6: a constant 404 failure is rethrown after one single
invocation, under the default maxRetries = 3 (API_CONFIG.MAX_RETRIES). -/
theorem apiCallWithRetry_spec_witness :
    retryLoop (V := Unit) (fun _ => .error ⟨some 404, "not found"⟩) 3 0 =
      (.clientError ⟨some 404, "not found"⟩, 1) ∧
    (apiCallWithRetry (V := Unit) (fun _ => .error ⟨some 404, "not found"⟩) 3).2 ≤ 4 := by
  have h := apiCallWithRetry_spec (V := Unit) (fun _ => .error ⟨some 404, "not found"⟩)
    3 0 ⟨some 404, "not found"⟩
  exact ⟨h.1 (by omega) rfl (by decide), h.2.2⟩

/-! ### C7: percent formatting in the report cards -/

/-- Decimal rendering of an integer count of hundredths as a two-decimal
string (the digit string JS produces for that many hundredths). -/
def hundredthsToString (n : ℤ) : String :=
  (if n < 0 then "-" else "") ++ toString (n.natAbs / 100) ++ "." ++
    (if n.natAbs % 100 < 10 then "0" else "") ++ toString (n.natAbs % 100)

/-- JavaScript `Number.prototype.toFixed(2)` on an exact value: per
ECMA-262, the rendered integer n of hundredths makes `n/100 - x` closest
to zero, ties picking the larger n — i.e. `⌊100x + 1/2⌋` hundredths. -/
def jsToFixed2 (v : ℚ) : String := hundredthsToString (jsRound (v * 100))

/-- `formatPercent` from `GridParametersCard`
(src/frontend/src/components/report/GridParametersCard.jsx lines 39-41):
`(value * 100).toFixed(2) + '%'`. -/
def formatPercentGrid (value : ℚ) : String := jsToFixed2 (value * 100) ++ "%"

/-- `formatPercent` from `BacktestResultCard`
(src/frontend/src/components/report/BacktestResultCard.jsx lines 42-44):
`(value * 100).toFixed(2) + '%'`. -/
def formatPercentBacktest (value : ℚ) : String := jsToFixed2 (value * 100) ++ "%"

/-- The five ratio-valued report fields of the claim, in the raw
fractional units the backend delivers. -/
structure ReportRatios where
  step_ratio : ℚ
  win_rate : ℚ
  max_drawdown : ℚ
  base_position_ratio : ℚ
  grid_fund_utilization_rate : ℚ

/-- The strings the two report cards render for the five ratio fields
(GridParametersCard lines 77, 104 and 249/258; BacktestResultCard lines
86/192 and 182). -/
def displayedRatios (r : ReportRatios) : List String :=
  [formatPercentGrid r.step_ratio,
   formatPercentBacktest r.win_rate,
   formatPercentBacktest r.max_drawdown,
   formatPercentGrid r.base_position_ratio,
   formatPercentGrid r.grid_fund_utilization_rate]

/-- C7: both report cards format a raw fraction x as the decimal string of
100·x rounded to two decimal places followed by '%', and that same ×100
conversion is applied to each of step_ratio, win_rate, max_drawdown,
base_position_ratio and utilization_rate at their display sites; e.g. the
raw fraction 1/2 renders as "50.00%". -/
theorem formatPercent_spec (x : ℚ) (r : ReportRatios) :
    formatPercentGrid x = formatPercentBacktest x ∧
    formatPercentGrid x = hundredthsToString (jsRound (100 * x * 100)) ++ "%" ∧
    displayedRatios r =
      [hundredthsToString (jsRound (100 * r.step_ratio * 100)) ++ "%",
       hundredthsToString (jsRound (100 * r.win_rate * 100)) ++ "%",
       hundredthsToString (jsRound (100 * r.max_drawdown * 100)) ++ "%",
       hundredthsToString (jsRound (100 * r.base_position_ratio * 100)) ++ "%",
       hundredthsToString (jsRound (100 * r.grid_fund_utilization_rate * 100)) ++ "%"] ∧
    formatPercentGrid (1/2) = "50.00%" := by
  have key : ∀ y : ℚ, formatPercentGrid y = hundredthsToString (jsRound (100 * y * 100)) ++ "%" := by
    intro y
    unfold formatPercentGrid jsToFixed2
    rw [mul_comm y 100]
  have keyB : ∀ y : ℚ,
      formatPercentBacktest y = hundredthsToString (jsRound (100 * y * 100)) ++ "%" := by
    intro y
    unfold formatPercentBacktest jsToFixed2
    rw [mul_comm y 100]
  have hval : jsRound ((1 : ℚ)/2 * 100 * 100) = 5000 := by
    norm_num [jsRound]
  refine ⟨rfl, key x, ?_, ?_⟩
  · simp only [displayedRatios, key, keyB]
  · unfold formatPercentGrid jsToFixed2
    rw [show ((1 : ℚ)/2 * 100) * 100 = (1 : ℚ)/2 * 100 * 100 by ring, hval]
    rfl

/-! ### C8/C9: URL parameter management (src/unnamed/part_000) -/

/-- Analysis-parameter object. Each field may be absent (`none`); JS
falsy-but-present values (capital 0, empty string) are `some 0` /
`some ""`. -/
structure AnalysisParams where
  totalCapital : Option ℚ
  gridType : Option String
  riskPreference : Option String
deriving DecidableEq

/-- The `capital`/`grid`/`risk` entries of the URL query string. The
numeric value of the `capital` entry is carried exactly: JS
`Number.prototype.toString` and `parseFloat` round-trip a finite number
without loss. -/
structure SearchParams where
  capital : Option ℚ
  grid : Option String
  risk : Option String
deriving DecidableEq

/-- `PARAM_MAPPINGS.gridType` (part_000 lines 7-17). -/
def paramMappingGrid (g : String) : Option String :=
  if g = "等比" then some "geometric"
  else if g = "等差" then some "arithmetic"
  else none

/-- `PARAM_MAPPINGS.riskPreference` (part_000 lines 7-17). -/
def paramMappingRisk (r : String) : Option String :=
  if r = "保守" then some "conservative"
  else if r = "稳健" then some "balanced"
  else if r = "激进" then some "aggressive"
  else none

/-- `REVERSE_PARAM_MAPPINGS.gridType` (part_000 lines 20-30). -/
def reverseMappingGrid (g : String) : Option String :=
  if g = "geometric" then some "等比"
  else if g = "arithmetic" then some "等差"
  else none

/-- `REVERSE_PARAM_MAPPINGS.riskPreference` (part_000 lines 20-30). -/
def reverseMappingRisk (r : String) : Option String :=
  if r = "conservative" then some "保守"
  else if r = "balanced" then some "稳健"
  else if r = "aggressive" then some "激进"
  else none

/-- `encodeAnalysisParams` (part_000 lines 44-65): each field is written
only when truthy (nonzero number, non-empty string); the mapping lookup
falls back to the raw value (`PARAM_MAPPINGS.gridType[g] || g`). -/
def encodeAnalysisParams (p : AnalysisParams) : SearchParams :=
  { capital := match p.totalCapital with
      | some c => if c = 0 then none else some c
      | none => none
    grid := match p.gridType with
      | some g => if g = "" then none else some ((paramMappingGrid g).getD g)
      | none => none
    risk := match p.riskPreference with
      | some r => if r = "" then none else some ((paramMappingRisk r).getD r)
      | none => none }

/-- `decodeAnalysisParams` (part_000 lines 72-97): the capital entry is
kept only when it parses into [100000, 5000000] (otherwise the field stays
absent); grid and risk come back through the reverse tables with raw
fallback. An entry holding the empty string is falsy and skipped. -/
def decodeAnalysisParams (sp : SearchParams) : AnalysisParams :=
  { totalCapital := match sp.capital with
      | some c => if 100000 ≤ c ∧ c ≤ 5000000 then some c else none
      | none => none
    gridType := match sp.grid with
      | some g => if g = "" then none else some ((reverseMappingGrid g).getD g)
      | none => none
    riskPreference := match sp.risk with
      | some r => if r = "" then none else some ((reverseMappingRisk r).getD r)
      | none => none }

/-- C8: encoding then decoding analysis parameters is the identity whenever
totalCapital is a number in [100000, 5000000], gridType is '等比' or '等差',
and riskPreference is '保守', '稳健' or '激进'. -/
theorem encode_decode_roundtrip (c : ℚ) (g r : String)
    (hc1 : 100000 ≤ c) (hc2 : c ≤ 5000000)
    (hg : g = "等比" ∨ g = "等差")
    (hr : r = "保守" ∨ r = "稳健" ∨ r = "激进") :
    decodeAnalysisParams (encodeAnalysisParams ⟨some c, some g, some r⟩) =
      ⟨some c, some g, some r⟩ := by
  have hc0 : ¬ (c = 0) := by
    intro h
    rw [h] at hc1
    norm_num at hc1
  rcases hg with hg | hg <;> rcases hr with hr | hr | hr <;> subst hg <;> subst hr <;>
    simp [encodeAnalysisParams, decodeAnalysisParams, paramMappingGrid, paramMappingRisk,
      reverseMappingGrid, reverseMappingRisk, hc0, hc1, hc2]

/-- Witness for C8 at (100000, '等比', '稳健'). -/
theorem encode_decode_roundtrip_witness :
    decodeAnalysisParams (encodeAnalysisParams ⟨some 100000, some "等比", some "稳健"⟩) =
      ⟨some 100000, some "等比", some "稳健"⟩ :=
  encode_decode_roundtrip 100000 "等比" "稳健" (by norm_num) (by norm_num)
    (Or.inl rfl) (Or.inr (Or.inl rfl))

/-- Result object of `validateAndCompleteParams` (part_000 lines 113-148). -/
structure ValidationResult where
  isValid : Bool
  errors : List String
  params : AnalysisParams
deriving DecidableEq

/-- The capital block of `validateAndCompleteParams` (part_000 lines
121-129): produced errors and final field value. A falsy (0) present value
takes the `!params.totalCapital` branch, like a missing one. The default
is `parseFloat(DEFAULT_PARAMS.capital) = 100000`. -/
def capitalStep (tc : Option ℚ) : List String × ℚ :=
  match tc with
  | none => ([], 100000)
  | some c =>
    if c = 0 then ([], 100000)
    else if c < 100000 ∨ 5000000 < c then (["投资金额应在10万-500万之间"], 100000)
    else ([], c)

/-- The grid-type block (part_000 lines 132-137); default
`REVERSE_PARAM_MAPPINGS.gridType[DEFAULT_PARAMS.grid] = '等比'`. -/
def gridStep (gt : Option String) : List String × String :=
  match gt with
  | none => ([], "等比")
  | some g =>
    if g = "" then ([], "等比")
    else if g = "等比" ∨ g = "等差" then ([], g)
    else (["网格类型参数无效"], "等比")

/-- The risk block (part_000 lines 140-145); default '稳健'. -/
def riskStep (rp : Option String) : List String × String :=
  match rp with
  | none => ([], "稳健")
  | some r =>
    if r = "" then ([], "稳健")
    else if r = "保守" ∨ r = "稳健" ∨ r = "激进" then ([], r)
    else (["风险偏好参数无效"], "稳健")

/-- `validateAndCompleteParams` (part_000 lines 113-148), decomposed into
its three sequential per-field blocks. `isValid` is initialised to true
and never reassigned; errors are pushed in field order. -/
def validateAndCompleteParams (p : AnalysisParams) : ValidationResult :=
  { isValid := true
    errors := (capitalStep p.totalCapital).1 ++ (gridStep p.gridType).1 ++
      (riskStep p.riskPreference).1
    params := ⟨some (capitalStep p.totalCapital).2, some (gridStep p.gridType).2,
      some (riskStep p.riskPreference).2⟩ }

/-- C9 counterexample: a present but zero totalCapital is out of range
[100000, 5000000], yet `validateAndCompleteParams` records no error for it
(it is silently defaulted as if missing) — refuting "an error message
appended for each invalid (but not merely missing) field". -/
theorem validateAndCompleteParams_zero_capital :
    (validateAndCompleteParams ⟨some 0, some "等比", some "稳健"⟩).errors = [] ∧
    (validateAndCompleteParams ⟨some 0, some "等比", some "稳健"⟩).params.totalCapital =
      some 100000 ∧
    (some (0 : ℚ) ≠ (none : Option ℚ)) ∧ ¬ ((100000 : ℚ) ≤ 0) := by
  refine ⟨?_, ?_, by simp, by norm_num⟩
  · simp [validateAndCompleteParams, capitalStep, gridStep, riskStep]
  · simp [validateAndCompleteParams, capitalStep]

/-- C9 (amended): `validateAndCompleteParams` always returns isValid = true;
the returned params always hold a capital in [100000, 5000000], a grid type
in {'等比','等差'} and a risk preference in {'保守','稳健','激进'}, missing
fields getting the defaults (100000, '等比', '稳健'); an error message is
appended exactly for each present, truthy and invalid field — a present but
falsy value (capital 0, empty string) is treated as missing and silently
defaulted without an error. -/
theorem validateAndCompleteParams_spec (p : AnalysisParams) :
    (validateAndCompleteParams p).isValid = true ∧
    (∃ c, (validateAndCompleteParams p).params.totalCapital = some c ∧
      100000 ≤ c ∧ c ≤ 5000000) ∧
    (∃ g, (validateAndCompleteParams p).params.gridType = some g ∧
      (g = "等比" ∨ g = "等差")) ∧
    (∃ rk, (validateAndCompleteParams p).params.riskPreference = some rk ∧
      (rk = "保守" ∨ rk = "稳健" ∨ rk = "激进")) ∧
    (p.totalCapital = none → (validateAndCompleteParams p).params.totalCapital = some 100000) ∧
    (p.gridType = none → (validateAndCompleteParams p).params.gridType = some "等比") ∧
    (p.riskPreference = none →
      (validateAndCompleteParams p).params.riskPreference = some "稳健") ∧
    ("投资金额应在10万-500万之间" ∈ (validateAndCompleteParams p).errors ↔
      ∃ c, p.totalCapital = some c ∧ c ≠ 0 ∧ (c < 100000 ∨ 5000000 < c)) ∧
    ("网格类型参数无效" ∈ (validateAndCompleteParams p).errors ↔
      ∃ g, p.gridType = some g ∧ g ≠ "" ∧ ¬ (g = "等比" ∨ g = "等差")) ∧
    ("风险偏好参数无效" ∈ (validateAndCompleteParams p).errors ↔
      ∃ rk, p.riskPreference = some rk ∧ rk ≠ "" ∧
        ¬ (rk = "保守" ∨ rk = "稳健" ∨ rk = "激进")) := by
  obtain ⟨tc, gt, rp⟩ := p
  refine ⟨rfl, ?_, ?_, ?_, ?_, ?_, ?_, ?_, ?_, ?_⟩
  · cases tc with
    | none => exact ⟨100000, rfl, by norm_num, by norm_num⟩
    | some c =>
      show ∃ x, some (capitalStep (some c)).2 = some x ∧ _
      simp only [capitalStep]
      by_cases h0 : c = 0
      · rw [if_pos h0]
        exact ⟨100000, rfl, by norm_num, by norm_num⟩
      · rw [if_neg h0]
        by_cases hr : c < 100000 ∨ 5000000 < c
        · rw [if_pos hr]
          exact ⟨100000, rfl, by norm_num, by norm_num⟩
        · rw [if_neg hr]
          push_neg at hr
          exact ⟨c, rfl, hr.1, hr.2⟩
  · cases gt with
    | none => exact ⟨"等比", rfl, Or.inl rfl⟩
    | some g =>
      show ∃ x, some (gridStep (some g)).2 = some x ∧ _
      simp only [gridStep]
      by_cases h0 : g = ""
      · rw [if_pos h0]
        exact ⟨"等比", rfl, Or.inl rfl⟩
      · rw [if_neg h0]
        by_cases hv : g = "等比" ∨ g = "等差"
        · rw [if_pos hv]
          exact ⟨g, rfl, hv⟩
        · rw [if_neg hv]
          exact ⟨"等比", rfl, Or.inl rfl⟩
  · cases rp with
    | none => exact ⟨"稳健", rfl, Or.inr (Or.inl rfl)⟩
    | some r =>
      show ∃ x, some (riskStep (some r)).2 = some x ∧ _
      simp only [riskStep]
      by_cases h0 : r = ""
      · rw [if_pos h0]
        exact ⟨"稳健", rfl, Or.inr (Or.inl rfl)⟩
      · rw [if_neg h0]
        by_cases hv : r = "保守" ∨ r = "稳健" ∨ r = "激进"
        · rw [if_pos hv]
          exact ⟨r, rfl, hv⟩
        · rw [if_neg hv]
          exact ⟨"稳健", rfl, Or.inr (Or.inl rfl)⟩
  · intro h
    rw [show tc = none from h]
    rfl
  · intro h
    rw [show gt = none from h]
    rfl
  · intro h
    rw [show rp = none from h]
    rfl
  · rw [show (validateAndCompleteParams ⟨tc, gt, rp⟩).errors =
        (capitalStep tc).1 ++ (gridStep gt).1 ++ (riskStep rp).1 from rfl]
    have hgrid : "投资金额应在10万-500万之间" ∉ (gridStep gt).1 := by
      cases gt with
      | none => simp [gridStep]
      | some g =>
        simp only [gridStep]
        split_ifs <;> simp
    have hrisk : "投资金额应在10万-500万之间" ∉ (riskStep rp).1 := by
      cases rp with
      | none => simp [riskStep]
      | some r =>
        simp only [riskStep]
        split_ifs <;> simp
    rw [List.mem_append, List.mem_append]
    constructor
    · rintro ((h | h) | h)
      · cases tc with
        | none => simp [capitalStep] at h
        | some c =>
          simp only [capitalStep] at h
          by_cases h0 : c = 0
          · rw [if_pos h0] at h
            simp at h
          · rw [if_neg h0] at h
            by_cases hr : c < 100000 ∨ 5000000 < c
            · exact ⟨c, rfl, h0, hr⟩
            · rw [if_neg hr] at h
              simp at h
      · exact absurd h hgrid
      · exact absurd h hrisk
    · rintro ⟨c, hc, h0, hr⟩
      left
      left
      obtain rfl : tc = some c := hc
      simp only [capitalStep]
      rw [if_neg h0, if_pos hr]
      simp
  · rw [show (validateAndCompleteParams ⟨tc, gt, rp⟩).errors =
        (capitalStep tc).1 ++ (gridStep gt).1 ++ (riskStep rp).1 from rfl]
    have hcap : "网格类型参数无效" ∉ (capitalStep tc).1 := by
      cases tc with
      | none => simp [capitalStep]
      | some c =>
        simp only [capitalStep]
        split_ifs <;> simp
    have hrisk : "网格类型参数无效" ∉ (riskStep rp).1 := by
      cases rp with
      | none => simp [riskStep]
      | some r =>
        simp only [riskStep]
        split_ifs <;> simp
    rw [List.mem_append, List.mem_append]
    constructor
    · rintro ((h | h) | h)
      · exact absurd h hcap
      · cases gt with
        | none => simp [gridStep] at h
        | some g =>
          simp only [gridStep] at h
          by_cases h0 : g = ""
          · rw [if_pos h0] at h
            simp at h
          · rw [if_neg h0] at h
            by_cases hv : g = "等比" ∨ g = "等差"
            · rw [if_pos hv] at h
              simp at h
            · exact ⟨g, rfl, h0, hv⟩
      · exact absurd h hrisk
    · rintro ⟨g, hg, h0, hv⟩
      left
      right
      obtain rfl : gt = some g := hg
      simp only [gridStep]
      rw [if_neg h0, if_neg hv]
      simp
  · rw [show (validateAndCompleteParams ⟨tc, gt, rp⟩).errors =
        (capitalStep tc).1 ++ (gridStep gt).1 ++ (riskStep rp).1 from rfl]
    have hcap : "风险偏好参数无效" ∉ (capitalStep tc).1 := by
      cases tc with
      | none => simp [capitalStep]
      | some c =>
        simp only [capitalStep]
        split_ifs <;> simp
    have hgrid : "风险偏好参数无效" ∉ (gridStep gt).1 := by
      cases gt with
      | none => simp [gridStep]
      | some g =>
        simp only [gridStep]
        split_ifs <;> simp
    rw [List.mem_append, List.mem_append]
    constructor
    · rintro ((h | h) | h)
      · exact absurd h hcap
      · exact absurd h hgrid
      · cases rp with
        | none => simp [riskStep] at h
        | some r =>
          simp only [riskStep] at h
          by_cases h0 : r = ""
          · rw [if_pos h0] at h
            simp at h
          · rw [if_neg h0] at h
            by_cases hv : r = "保守" ∨ r = "稳健" ∨ r = "激进"
            · rw [if_pos hv] at h
              simp at h
            · exact ⟨r, rfl, h0, hv⟩
    · rintro ⟨r, hr, h0, hv⟩
      right
      obtain rfl : rp = some r := hr
      simp only [riskStep]
      rw [if_neg h0, if_neg hv]
      simp

/-! ### C10: grid level display window (GridParametersCard lines 305-380) -/

/-- The `centerIndex` scan of GridParametersCard lines 332-342, iterating
indices from `i`: keeps the running best index and its `minDiff`; a strict
`<` keeps the first minimizer. -/
def findCenterAux (current : ℚ) : List ℚ → ℕ → ℕ → ℚ → ℕ × ℚ
  | [], _, best, minDiff => (best, minDiff)
  | p :: tl, i, best, minDiff =>
    if abs (p - current) < minDiff then findCenterAux current tl (i + 1) i (abs (p - current))
    else findCenterAux current tl (i + 1) best minDiff

/-- `centerIndex` (lines 332-342): the index of the price level closest to
`current_price`, seeded with index 0. -/
def findCenter (levels : List ℚ) (current : ℚ) : ℕ :=
  match levels with
  | [] => 0
  | p :: tl => (findCenterAux current tl 1 0 (abs (p - current))).1

/-- `startIndex` before the end-adjustment (line 346):
`Math.max(0, centerIndex - halfDisplay)` with `halfDisplay = 10`. -/
def dlStart0 (levels : List ℚ) (current : ℚ) : ℤ :=
  max 0 ((findCenter levels current : ℤ) - 10)

/-- `endIndex` (line 347): `Math.min(priceLevels.length, startIndex + 21)`. -/
def dlEnd (levels : List ℚ) (current : ℚ) : ℤ :=
  min (levels.length : ℤ) (dlStart0 levels current + 21)

/-- `startIndex` after the end-adjustment (lines 350-352): pulled back to
`Math.max(0, endIndex - 21)` when fewer than 21 entries remain. -/
def dlStart (levels : List ℚ) (current : ℚ) : ℤ :=
  if dlEnd levels current - dlStart0 levels current < 21 then
    max 0 (dlEnd levels current - 21)
  else dlStart0 levels current

/-- The displayed window of price levels (lines 305-354): everything when
at most `maxDisplay = 21` levels exist, else
`priceLevels.slice(startIndex, endIndex)`. -/
def displayLevels (levels : List ℚ) (current : ℚ) : List ℚ :=
  if levels.length ≤ 21 then levels
  else
    (levels.drop (dlStart levels current).toNat).take
      (dlEnd levels current - dlStart levels current).toNat

lemma findCenterAux_spec (current : ℚ) :
    ∀ (tl : List ℚ) (i best : ℕ) (minDiff : ℚ),
      (findCenterAux current tl i best minDiff).2 ≤ minDiff ∧
      ((findCenterAux current tl i best minDiff).1 = best ∧
          (findCenterAux current tl i best minDiff).2 = minDiff ∨
        ∃ k, k < tl.length ∧ (findCenterAux current tl i best minDiff).1 = i + k ∧
          (findCenterAux current tl i best minDiff).2 = abs (tl.getD k 0 - current)) ∧
      (∀ k, k < tl.length →
        (findCenterAux current tl i best minDiff).2 ≤ abs (tl.getD k 0 - current)) := by
  intro tl
  induction tl with
  | nil =>
    intro i best minDiff
    exact ⟨le_rfl, Or.inl ⟨rfl, rfl⟩, fun k hk => absurd hk (Nat.not_lt_zero k)⟩
  | cons p tl ih =>
    intro i best minDiff
    simp only [findCenterAux]
    by_cases h : abs (p - current) < minDiff
    · rw [if_pos h]
      obtain ⟨ha, hb, hc⟩ := ih (i + 1) i (abs (p - current))
      refine ⟨ha.trans h.le, ?_, ?_⟩
      · rcases hb with ⟨hb1, hb2⟩ | ⟨k, hk, hk1, hk2⟩
        · refine Or.inr ⟨0, by simp, by omega, ?_⟩
          rw [hb2]
          simp
        · refine Or.inr ⟨k + 1, by simpa using hk, by omega, ?_⟩
          rw [hk2]
          simp
      · intro k hk
        cases k with
        | zero => simpa using ha
        | succ k' =>
          have hk' := hc k' (by simpa using hk)
          simpa using hk'
    · rw [if_neg h]
      obtain ⟨ha, hb, hc⟩ := ih (i + 1) best minDiff
      refine ⟨ha, ?_, ?_⟩
      · rcases hb with ⟨hb1, hb2⟩ | ⟨k, hk, hk1, hk2⟩
        · exact Or.inl ⟨hb1, hb2⟩
        · refine Or.inr ⟨k + 1, by simpa using hk, by omega, ?_⟩
          rw [hk2]
          simp
      · intro k hk
        cases k with
        | zero =>
          have h' : minDiff ≤ abs (p - current) := not_lt.mp h
          simpa using ha.trans h'
        | succ k' =>
          have hk' := hc k' (by simpa using hk)
          simpa using hk'

lemma findCenter_spec (levels : List ℚ) (current : ℚ) (hne : levels ≠ []) :
    findCenter levels current < levels.length ∧
    ∀ j, j < levels.length →
      abs (levels.getD (findCenter levels current) 0 - current) ≤
        abs (levels.getD j 0 - current) := by
  cases levels with
  | nil => exact absurd rfl hne
  | cons p tl =>
    obtain ⟨ha, hb, hc⟩ := findCenterAux_spec current tl 1 0 (abs (p - current))
    have hval : (findCenterAux current tl 1 0 (abs (p - current))).2 =
        abs ((p :: tl).getD (findCenterAux current tl 1 0 (abs (p - current))).1 0 -
          current) := by
      rcases hb with ⟨hb1, hb2⟩ | ⟨k, hk, hk1, hk2⟩
      · rw [hb2, hb1, List.getD_cons_zero]
      · rw [hk2, hk1, Nat.add_comm 1 k, List.getD_cons_succ]
    constructor
    · show (findCenterAux current tl 1 0 (abs (p - current))).1 < (p :: tl).length
      rcases hb with ⟨hb1, -⟩ | ⟨k, hk, hk1, -⟩
      · rw [hb1]
        simp
      · rw [hk1, List.length_cons]
        omega
    · intro j hj
      show abs ((p :: tl).getD (findCenterAux current tl 1 0 (abs (p - current))).1 0 -
          current) ≤ abs ((p :: tl).getD j 0 - current)
      rw [← hval]
      cases j with
      | zero => simpa using ha
      | succ j' =>
        have hj' := hc j' (by simpa using hj)
        simpa using hj'

/-- C10: the grid level window is bounded and centered. For a non-empty
`price_levels` array: with at most 21 entries everything is rendered;
otherwise exactly 21 consecutive levels are rendered, with the window
[s, s+21) inside the array bounds and containing the index of the level
closest to `current_price` (which `findCenter` computes). -/
theorem displayLevels_window (levels : List ℚ) (current : ℚ) (hne : levels ≠ []) :
    (levels.length ≤ 21 → displayLevels levels current = levels) ∧
    (21 < levels.length → ∃ s : ℕ,
      displayLevels levels current = (levels.drop s).take 21 ∧
      (displayLevels levels current).length = 21 ∧
      s + 21 ≤ levels.length ∧
      s ≤ findCenter levels current ∧ findCenter levels current < s + 21) ∧
    (findCenter levels current < levels.length ∧
      ∀ j, j < levels.length →
        abs (levels.getD (findCenter levels current) 0 - current) ≤
          abs (levels.getD j 0 - current)) := by
  obtain ⟨hclt, hcmin⟩ := findCenter_spec levels current hne
  refine ⟨fun h => ?_, fun hL => ?_, hclt, hcmin⟩
  · unfold displayLevels
    rw [if_pos h]
  · have h0 : (0 : ℤ) ≤ dlStart0 levels current := le_max_left _ _
    have hle : dlStart0 levels current ≤ (findCenter levels current : ℤ) := by
      unfold dlStart0
      apply max_le <;> omega
    have h10 : (findCenter levels current : ℤ) - 10 ≤ dlStart0 levels current :=
      le_max_right _ _
    have hwin : ∀ s21 : ℤ, dlStart levels current = s21 → 0 ≤ s21 →
        dlEnd levels current - s21 = 21 → s21 + 21 ≤ (levels.length : ℤ) →
        s21 ≤ (findCenter levels current : ℤ) →
        (findCenter levels current : ℤ) < s21 + 21 → ∃ s : ℕ,
        displayLevels levels current = (levels.drop s).take 21 ∧
        (displayLevels levels current).length = 21 ∧
        s + 21 ≤ levels.length ∧
        s ≤ findCenter levels current ∧ findCenter levels current < s + 21 := by
      intro s21 hs hpos hcount hbound hlo hhi
      refine ⟨s21.toNat, ?_, ?_, by omega, by omega, by omega⟩
      · unfold displayLevels
        rw [if_neg (by omega), hs]
        congr 1
        omega
      · unfold displayLevels
        rw [if_neg (by omega), hs]
        rw [List.length_take, List.length_drop]
        omega
    by_cases h2 : dlStart0 levels current + 21 ≤ (levels.length : ℤ)
    · have he : dlEnd levels current = dlStart0 levels current + 21 := min_eq_right h2
      have hs : dlStart levels current = dlStart0 levels current := by
        unfold dlStart
        rw [if_neg (by omega)]
      exact hwin (dlStart0 levels current) hs h0 (by omega) (by omega) (by omega) (by omega)
    · have he : dlEnd levels current = (levels.length : ℤ) :=
        min_eq_left (by omega)
      have hs : dlStart levels current = (levels.length : ℤ) - 21 := by
        unfold dlStart
        rw [if_pos (by omega), he, max_eq_right (by omega)]
      exact hwin ((levels.length : ℤ) - 21) hs (by omega) (by omega) (by omega)
        (by omega) (by omega)

/-- Witness for C10 on the two-level grid [1, 2] with current price 1. -/
theorem displayLevels_window_witness :
    displayLevels [1, 2] 1 = [1, 2] ∧ findCenter [1, 2] 1 < 2 := by
  have h := displayLevels_window [1, 2] 1 (List.cons_ne_nil 1 [2])
  exact ⟨h.1 (by norm_num), by simpa using h.2.2.1⟩

end EtfGrid
